import Mathlib

/-!
Verification of the mock hexapod controller of ts_hexgui
(python/lsst/ts/hexgui/mock_controller.py) against its natural-language
specification.

The controller is embedded shallowly: floats become exact rationals ℚ
(values of the form a + b·√3, produced by the pose-to-strut transform,
become the pair type `Q3`), the mutable `MockController` object becomes
the record `MockController`, and each Python command handler becomes a
function `MockController → MockController × Option String` where the
second component is `some msg` when the handler raised `RuntimeError(msg)`
(a raise aborts the remaining statements of the handler but keeps any
mutation already performed, exactly as a Python exception against the
mutated `self` would).
-/

namespace HexGui

/-! ### Constants (constants.py and class attributes of MockController) -/

def NUM_STRUT : Nat := 6

def NUM_DRIVE : Nat := 3

def NUM_DEGREE_OF_FREEDOM : Nat := 6

def MAX_ACTUATOR_RANGE_MIC : ℚ := 14100

def MAX_ACCEL_LIMIT : ℚ := 500

def MAX_LINEAR_VEL_LIMIT : ℚ := 2000

def MAX_ANGULAR_VEL_LIMIT : ℚ := 1146 / 10000

def CAM_XY_MAX_MIC : ℚ := 11400

def CAM_Z_MIN_MIC : ℚ := -13100

def CAM_Z_MAX_MIC : ℚ := 13100

def CAM_UV_MAX_DEG : ℚ := 36 / 100

def CAM_W_MIN_DEG : ℚ := -1 / 10

def CAM_W_MAX_DEG : ℚ := 1 / 10

def STRUT_CURRENT : ℚ := 8 / 10

def BUS_VOLTAGE : ℚ := 330

def STRUT_SPEED : ℚ := 500

def PIVOT : ℚ × ℚ × ℚ := (0, 0, -703000)

def CYCLE_MOVE_POSITION_UM : ℚ := 100

def CYCLE_MOVE_POSITION_DEG : ℚ := 1 / 100

/-! ### Exact values of the form a + b·√3

The pose-to-strut transform multiplies the z coordinate by `np.sqrt(3)`.
To keep the embedding exact and executable, values are represented in the
field ℚ(√3): `Q3.a` is the rational part and `Q3.b` the coefficient of √3.
-/

structure Q3 where
  a : ℚ
  b : ℚ
deriving DecidableEq, Repr

def Q3.ofQ (q : ℚ) : Q3 := ⟨q, 0⟩

def Q3.sqrt3 : Q3 := ⟨0, 1⟩

instance : Add Q3 := ⟨fun x y => ⟨x.a + y.a, x.b + y.b⟩⟩

instance : Mul Q3 := ⟨fun x y => ⟨x.a * y.a + 3 * (x.b * y.b), x.a * y.b + x.b * y.a⟩⟩

/-! ### Data model (structs.py is not under src/; fields are those the
mock controller reads and writes, spec §3) -/

/-- The enabled sub-state (MTHexapod.EnabledSubstate); the mock controller
only ever uses STATIONARY and MOVING_POINT_TO_POINT (spec §4.2). -/
inductive EnabledSubstate where
  | stationary
  | movingPointToPoint
deriving DecidableEq, Repr

/-- Modelled from the spec: `Config` of structs.py is code of this
repository not under src/; fields follow spec §3 and the assignments in
mock_controller.py. -/
structure Config where
  acceleration_strut : ℚ
  vel_limits : ℚ × ℚ × ℚ × ℚ
  max_displacement_strut : ℚ
  max_velocity_strut : ℚ
  pos_limits : ℚ × ℚ × ℚ × ℚ × ℚ × ℚ
  pivot : ℚ × ℚ × ℚ
  drives_enabled : Bool
deriving DecidableEq, Repr

/-- Modelled from the spec: `Telemetry` of structs.py is code of this
repository not under src/; fields follow spec §3 and the assignments in
mock_controller.py.  `estimated_posfiltvel_pos i` is the `pos` member of
`telemetry.estimated_posfiltvel[i]`. -/
structure Telemetry where
  enabled_substate : EnabledSubstate
  measured_xyz : Fin 3 → ℚ
  measured_uvw : Fin 3 → ℚ
  commanded_pos : Fin 6 → ℚ
  strut_commanded_final_pos : Fin 6 → Q3
  strut_commanded_accel : Fin 6 → ℚ
  latching_fault_status_register : Fin 6 → Nat
  input_pin_states : Fin 3 → Nat
  copley_fault_status_register : Fin 6 → Nat
  status_word : Fin 6 → Nat
  application_status : Nat
  motor_current : Fin 6 → ℚ
  bus_voltage : Fin 3 → ℚ
  estimated_posfiltvel_pos : Fin 6 → Q3

/-- The state of a `MockController` instance: its config and telemetry
structs, the `_is_csc_commander` flag and the staged `_commanded_position`. -/
structure MockController where
  config : Config
  telemetry : Telemetry
  is_csc_commander : Bool
  commanded_position : Option (Fin 6 → ℚ)

/-! ### The per-cycle axis advance (_move_position) -/

/-- `np.sign` restricted to rationals. -/
def np_sign (x : ℚ) : ℚ := if 0 < x then 1 else if x < 0 then -1 else 0

/-- `MockController._move_position`: advance one axis one step toward the
target; returns (is_done, new position). -/
def move_position (position_current position_target step : ℚ) : Bool × ℚ :=
  if position_current = position_target then
    (true, position_current)
  else
    let direction := np_sign (position_target - position_current)
    let position_new := position_current + direction * step
    if 0 < direction ∧ position_target ≤ position_new then
      (true, position_target)
    else if direction < 0 ∧ position_new ≤ position_target then
      (true, position_target)
    else
      (false, position_new)

/-! ### The pose-to-strut transform (_hexapod_position_to_strut_position) -/

/-- `MockController._hexapod_position_to_strut_position`: map a 6-DOF pose
(x, y, z, u, v, w) in microns/degrees to the six strut positions in meter. -/
def hexapod_position_to_strut_position (hexapod_position : Fin 6 → ℚ) :
    Fin 6 → Q3 :=
  let UM_TO_M : ℚ := 1 / 1000000
  let strut_position_x := Q3.ofQ (hexapod_position 0) * Q3.ofQ UM_TO_M
  let strut_position_y := Q3.ofQ (hexapod_position 1) * Q3.ofQ UM_TO_M
  let strut_position_z := Q3.ofQ (hexapod_position 2) * Q3.sqrt3 * Q3.ofQ UM_TO_M
  let DEG_TO_M_SCALE_FACTOR : ℚ := 1 / 1000
  let strut_position_rx := Q3.ofQ (hexapod_position 3) * Q3.ofQ DEG_TO_M_SCALE_FACTOR
  let strut_position_ry := Q3.ofQ (hexapod_position 4) * Q3.ofQ DEG_TO_M_SCALE_FACTOR
  let strut_position_rz := Q3.ofQ (hexapod_position 5) * Q3.ofQ DEG_TO_M_SCALE_FACTOR
  fun i =>
    match i with
    | 0 => strut_position_z + strut_position_rz + strut_position_x + strut_position_ry
    | 1 => strut_position_z + strut_position_rz + strut_position_y + strut_position_rx
    | 2 => strut_position_z + strut_position_rz + strut_position_x + strut_position_ry
    | 3 => strut_position_z + strut_position_rz + strut_position_y + strut_position_rx
    | 4 => strut_position_z + strut_position_rz + strut_position_x + strut_position_ry
    | 5 => strut_position_z + strut_position_rz + strut_position_y + strut_position_rx

/-! ### Commands and handlers

Each handler mirrors the Python `do_*` coroutine: it returns the new
controller state together with `some msg` when the handler raised
`RuntimeError(msg)` (the state component then carries exactly the
mutations performed before the raise — for every handler below, none). -/

/-- The commands the mock controller registers in `extra_commands`;
the two `SET_ENABLED_SUBSTATE` sub-codes become the first two
constructors. -/
inductive Command where
  | movePointToPoint
  | stop
  | positionSet (param1 param2 param3 param4 param5 param6 : ℚ)
  | positionOffset (param1 param2 param3 param4 param5 param6 : ℚ)
  | setRawStrut
  | setPivotPoint (param1 param2 param3 : ℚ)
  | maskLimitSwitch
  | switchCommandSource (param1 : ℚ)
  | configAccel (param1 : ℚ)
  | configVel (param1 param2 param3 param4 : ℚ)
deriving DecidableEq, Repr

/-- Modelled from the spec: `assert_stationary` lives in the external base
class (lsst.ts.hexrotcomm), not in src/; per spec §§4.2-4.3 a command
requiring STATIONARY fails with an execution error when the enabled
sub-state is MOVING_POINT_TO_POINT. -/
def assert_stationary (s : MockController) : Option String :=
  if s.telemetry.enabled_substate = EnabledSubstate.stationary then none
  else some "Enabled substate must be STATIONARY"

/-- `MockController.do_move_point_to_point`. -/
def do_move_point_to_point (s : MockController) : MockController × Option String :=
  match assert_stationary s with
  | some e => (s, some e)
  | none =>
    match s.commanded_position with
    | none => (s, some "Must set the position or offset first.")
    | some pos =>
      ({ s with
          telemetry := { s.telemetry with
            commanded_pos := pos
            strut_commanded_final_pos := hexapod_position_to_strut_position pos
            strut_commanded_accel := fun _ => s.config.acceleration_strut
            enabled_substate := EnabledSubstate.movingPointToPoint } },
        none)

/-- `MockController.do_stop`. -/
def do_stop (s : MockController) : MockController × Option String :=
  ({ s with
      telemetry := { s.telemetry with
        enabled_substate := EnabledSubstate.stationary } },
    none)

/-- `MockController.do_position_set`. -/
def do_position_set (s : MockController)
    (param1 param2 param3 param4 param5 param6 : ℚ) :
    MockController × Option String :=
  match assert_stationary s with
  | some e => (s, some e)
  | none =>
    ({ s with
        commanded_position := some ![param1, param2, param3, param4, param5, param6] },
      none)

/-- `MockController.do_position_offset`: commanded position is the current
measured pose (xyz ++ uvw) plus the six offset parameters. -/
def do_position_offset (s : MockController)
    (param1 param2 param3 param4 param5 param6 : ℚ) :
    MockController × Option String :=
  match assert_stationary s with
  | some e => (s, some e)
  | none =>
    let current_positions : Fin 6 → ℚ :=
      ![s.telemetry.measured_xyz 0, s.telemetry.measured_xyz 1,
        s.telemetry.measured_xyz 2, s.telemetry.measured_uvw 0,
        s.telemetry.measured_uvw 1, s.telemetry.measured_uvw 2]
    let offsets : Fin 6 → ℚ := ![param1, param2, param3, param4, param5, param6]
    ({ s with
        commanded_position := some (fun i => current_positions i + offsets i) },
      none)

/-- `MockController.do_set_raw_strut`: always fails. -/
def do_set_raw_strut (s : MockController) : MockController × Option String :=
  (s, some "Not supported in the simulator.")

/-- `MockController.do_set_pivot_point`. -/
def do_set_pivot_point (s : MockController) (param1 param2 param3 : ℚ) :
    MockController × Option String :=
  match assert_stationary s with
  | some e => (s, some e)
  | none =>
    ({ s with config := { s.config with pivot := (param1, param2, param3) } },
      none)

/-- `MockController.do_mask_limit_switch`: always fails. -/
def do_mask_limit_switch (s : MockController) : MockController × Option String :=
  (s, some "Not supported in the simulator.")

/-- `MockController.do_switch_command_source`: sets `_is_csc_commander`
to `param1 == 1.0`; no stationarity requirement. -/
def do_switch_command_source (s : MockController) (param1 : ℚ) :
    MockController × Option String :=
  ({ s with is_csc_commander := decide (param1 = 1) }, none)

/-- The message of the `RuntimeError` raised by `_check_positive_value`:
f-string "{name}={value} not in range (0, {max_value}]". -/
def range_error_message (name : String) (value max_value : ℚ) : String :=
  name ++ "=" ++ toString value ++ " not in range (0, " ++ toString max_value ++ "]"

/-- `MockController._check_positive_value`: `none` when
`0 < value <= max_value`, the raised message otherwise. -/
def check_positive_value (value : ℚ) (name : String) (max_value : ℚ) :
    Option String :=
  if ¬(0 < value ∧ value ≤ max_value) then
    some (range_error_message name value max_value)
  else
    none

/-- `MockController.do_config_accel`. -/
def do_config_accel (s : MockController) (param1 : ℚ) :
    MockController × Option String :=
  match assert_stationary s with
  | some e => (s, some e)
  | none =>
    match check_positive_value param1 "acceleration" MAX_ACCEL_LIMIT with
    | some e => (s, some e)
    | none =>
      ({ s with config := { s.config with acceleration_strut := param1 } }, none)

/-- `MockController.do_config_vel`: validates param1..param4 in wire order
(xy linear, uv angular, z linear, w angular) and stores
`(param1, param3, param2, param4)`. -/
def do_config_vel (s : MockController) (param1 param2 param3 param4 : ℚ) :
    MockController × Option String :=
  match assert_stationary s with
  | some e => (s, some e)
  | none =>
    match check_positive_value param1 "xy" MAX_LINEAR_VEL_LIMIT with
    | some e => (s, some e)
    | none =>
      match check_positive_value param2 "uv" MAX_ANGULAR_VEL_LIMIT with
      | some e => (s, some e)
      | none =>
        match check_positive_value param3 "z" MAX_LINEAR_VEL_LIMIT with
        | some e => (s, some e)
        | none =>
          match check_positive_value param4 "w" MAX_ANGULAR_VEL_LIMIT with
          | some e => (s, some e)
          | none =>
            ({ s with
                config := { s.config with
                  vel_limits := (param1, param3, param2, param4) } },
              none)

/-- Dispatch a command to its handler (the `extra_commands` table). -/
def do_command (s : MockController) : Command → MockController × Option String
  | Command.movePointToPoint => do_move_point_to_point s
  | Command.stop => do_stop s
  | Command.positionSet p1 p2 p3 p4 p5 p6 => do_position_set s p1 p2 p3 p4 p5 p6
  | Command.positionOffset p1 p2 p3 p4 p5 p6 => do_position_offset s p1 p2 p3 p4 p5 p6
  | Command.setRawStrut => do_set_raw_strut s
  | Command.setPivotPoint p1 p2 p3 => do_set_pivot_point s p1 p2 p3
  | Command.maskLimitSwitch => do_mask_limit_switch s
  | Command.switchCommandSource p1 => do_switch_command_source s p1
  | Command.configAccel p1 => do_config_accel s p1
  | Command.configVel p1 p2 p3 p4 => do_config_vel s p1 p2 p3 p4

/-- Whether the command method is `do_position_set` or `do_position_offset`
(the test of `end_run_command`). -/
def is_position_command : Command → Bool
  | Command.positionSet _ _ _ _ _ _ => true
  | Command.positionOffset _ _ _ _ _ _ => true
  | _ => false

/-- `MockController.end_run_command`: clear `_commanded_position` unless
the just-run method was `do_position_set` or `do_position_offset`. -/
def end_run_command (s : MockController) (c : Command) : MockController :=
  if is_position_command c then s else { s with commanded_position := none }

/-- Modelled from the spec: the command loop of the external base class
(lsst.ts.hexrotcomm) runs the handler and, when the command completes
without an exception, runs `end_run_command` (spec §4.3 post-command
bookkeeping: "after any command completes"); a rejected command mutates
nothing further (spec §7: all-or-nothing per command). -/
def run_command (s : MockController) (c : Command) : MockController × Option String :=
  match do_command s c with
  | (s1, none) => (end_run_command s1 c, none)
  | (s1, some e) => (s1, some e)

/-! ### Telemetry synthesis (update_telemetry)

The body of `update_telemetry` is one `try` block containing four
sections in order (Copley drive status, application status, power,
hexapod/strut motion) and a single `except` that logs and swallows any
exception. -/

/-- `MTHexapod.ApplicationStatus.DDS_COMMAND_SOURCE`; value 0x400 per the
comment in model.py ("AppStatus_CommandByCsc = 0x400"). -/
def DDS_COMMAND_SOURCE : Nat := 0x400

/-- Modelled from the spec: the numeric value of
`MTHexapod.ApplicationStatus.EUI_CONNECTED` lives in the external
lsst.ts.xml enum, not in src/; modelled as a single bit distinct from the
other two flags (spec §4.4: GUI-connection flag). -/
def EUI_CONNECTED : Nat := 0x100

/-- Modelled from the spec: the numeric value of
`MTHexapod.ApplicationStatus.SYNC_MODE` lives in the external lsst.ts.xml
enum, not in src/; modelled as a single bit distinct from the other two
flags (spec §4.4: sync-mode flag). -/
def SYNC_MODE : Nat := 0x200

/-- Section 1 of `update_telemetry`: the Copley drive status registers. -/
def drive_status_section (s : MockController) : MockController :=
  { s with
      telemetry := { s.telemetry with
        latching_fault_status_register := fun _ => 0
        input_pin_states := fun _ => 0x380E0
        copley_fault_status_register := fun _ => 0xF000
        status_word :=
          if s.config.drives_enabled then (fun _ => 0x631) else (fun _ => 0x670) } }

/-- Section 2 of `update_telemetry`: the application status
(EUI_CONNECTED | SYNC_MODE, plus DDS_COMMAND_SOURCE iff
`_is_csc_commander`). -/
def application_status_section (s : MockController) : MockController :=
  { s with
      telemetry := { s.telemetry with
        application_status :=
          (EUI_CONNECTED ||| SYNC_MODE) |||
            (if s.is_csc_commander then DDS_COMMAND_SOURCE else 0) } }

/-- Section 3 of `update_telemetry`: motor current and bus voltage. -/
def power_section (s : MockController) : MockController :=
  { s with
      telemetry := { s.telemetry with
        motor_current :=
          if s.config.drives_enabled then (fun _ => STRUT_CURRENT) else (fun _ => 0)
        bus_voltage := fun _ => BUS_VOLTAGE } }

/-- Section 4 of `update_telemetry`: while MOVING_POINT_TO_POINT, advance
each of the six axes one step, recompute the strut positions from the new
pose, and either flip to STATIONARY (clearing `_commanded_position`) when
all axes are done or set status-word bit 14 (0x4000) on every strut. -/
def motion_section (s : MockController) : MockController :=
  if s.telemetry.enabled_substate = EnabledSubstate.movingPointToPoint then
    let mx := move_position (s.telemetry.measured_xyz 0)
      (s.telemetry.commanded_pos 0) CYCLE_MOVE_POSITION_UM
    let my := move_position (s.telemetry.measured_xyz 1)
      (s.telemetry.commanded_pos 1) CYCLE_MOVE_POSITION_UM
    let mz := move_position (s.telemetry.measured_xyz 2)
      (s.telemetry.commanded_pos 2) CYCLE_MOVE_POSITION_UM
    let mu := move_position (s.telemetry.measured_uvw 0)
      (s.telemetry.commanded_pos 3) CYCLE_MOVE_POSITION_DEG
    let mv := move_position (s.telemetry.measured_uvw 1)
      (s.telemetry.commanded_pos 4) CYCLE_MOVE_POSITION_DEG
    let mw := move_position (s.telemetry.measured_uvw 2)
      (s.telemetry.commanded_pos 5) CYCLE_MOVE_POSITION_DEG
    let strut_positions := hexapod_position_to_strut_position
      ![mx.2, my.2, mz.2, mu.2, mv.2, mw.2]
    let M_TO_UM : ℚ := 1000000
    let t2 := { s.telemetry with
      measured_xyz := ![mx.2, my.2, mz.2]
      measured_uvw := ![mu.2, mv.2, mw.2]
      estimated_posfiltvel_pos := fun i => strut_positions i * Q3.ofQ M_TO_UM }
    if mx.1 && my.1 && mz.1 && mu.1 && mv.1 && mw.1 then
      { s with
          telemetry := { t2 with enabled_substate := EnabledSubstate.stationary }
          commanded_position := none }
    else
      { s with
          telemetry := { t2 with
            status_word := fun i => t2.status_word i ||| 0x4000 } }
  else
    s

/-- `MockController.update_telemetry` when no section faults: the four
sections in order. -/
def update_telemetry (s : MockController) : MockController :=
  motion_section (power_section (application_status_section (drive_status_section s)))

/-- The exception structure of `update_telemetry` (mock_controller.py
lines 441-550): the four sections run in order inside one `try`; a fault
in a section is caught by the single `except` (logged, never propagated),
keeping the state mutated so far and skipping the remaining sections.
Sections are passed as fallible state transformers so that a runtime
exception inside a section is representable. -/
def update_telemetry_guarded
    (f1 f2 f3 f4 : MockController → Except Unit MockController)
    (s : MockController) : MockController :=
  match f1 s with
  | Except.error _ => s
  | Except.ok s1 =>
    match f2 s1 with
    | Except.error _ => s1
    | Except.ok s2 =>
      match f3 s2 with
      | Except.error _ => s2
      | Except.ok s3 =>
        match f4 s3 with
        | Except.error _ => s3
        | Except.ok s4 => s4

/-- Lift an infallible section to a fallible transformer. -/
def lift_section (f : MockController → MockController) :
    MockController → Except Unit MockController :=
  fun s => Except.ok (f s)

/-! ### Concrete states (for evaluating the claims on inputs) -/

/-- `_create_config` for the camera hexapod. -/
def camera_config : Config :=
  { acceleration_strut := MAX_ACCEL_LIMIT
    vel_limits :=
      (MAX_LINEAR_VEL_LIMIT, MAX_LINEAR_VEL_LIMIT,
        MAX_ANGULAR_VEL_LIMIT, MAX_ANGULAR_VEL_LIMIT)
    max_displacement_strut := MAX_ACTUATOR_RANGE_MIC
    max_velocity_strut := STRUT_SPEED
    pos_limits :=
      (CAM_XY_MAX_MIC, CAM_Z_MIN_MIC, CAM_Z_MAX_MIC,
        CAM_UV_MAX_DEG, CAM_W_MIN_DEG, CAM_W_MAX_DEG)
    pivot := PIVOT
    drives_enabled := false }

/-- `_create_telemetry`: zero-initialized struct with the bus voltage set. -/
def initial_telemetry : Telemetry :=
  { enabled_substate := EnabledSubstate.stationary
    measured_xyz := fun _ => 0
    measured_uvw := fun _ => 0
    commanded_pos := fun _ => 0
    strut_commanded_final_pos := fun _ => Q3.ofQ 0
    strut_commanded_accel := fun _ => 0
    latching_fault_status_register := fun _ => 0
    input_pin_states := fun _ => 0
    copley_fault_status_register := fun _ => 0
    status_word := fun _ => 0
    application_status := 0
    motor_current := fun _ => 0
    bus_voltage := fun _ => BUS_VOLTAGE
    estimated_posfiltvel_pos := fun _ => Q3.ofQ 0 }

/-- A freshly constructed camera-hexapod mock controller. -/
def initial_controller : MockController :=
  { config := camera_config
    telemetry := initial_telemetry
    is_csc_commander := false
    commanded_position := none }

/-- A controller in the middle of a point-to-point move with a staged
commanded position. -/
def moving_controller : MockController :=
  { initial_controller with
      telemetry := { initial_telemetry with
        enabled_substate := EnabledSubstate.movingPointToPoint }
      commanded_position := some ![100, 200, 300, 1 / 10, -1 / 10, 5 / 1000] }

/-- A stationary controller with a staged commanded position. -/
def staged_controller : MockController :=
  { initial_controller with
      commanded_position := some ![100, 200, 300, 1 / 10, -1 / 10, 5 / 1000] }

/-- A command is rejected at a state when running it reports an error and
returns the state unmutated. -/
def rejected (s : MockController) (c : Command) : Prop :=
  (run_command s c).1 = s ∧ ((run_command s c).2).isSome = true

/-! ### Theorems -/

/-- Auxiliary characterization of `_move_position` for a positive step:
snap to the target when the remaining distance is at most one step,
otherwise advance one signed step. -/
lemma move_position_characterization (c t s : ℚ) (hs : 0 < s) :
    move_position c t s =
      if |t - c| ≤ s then (true, t) else (false, c + np_sign (t - c) * s) := by
  rcases lt_trichotomy c t with hlt | heq | hgt
  · have hne : c ≠ t := ne_of_lt hlt
    have hsign : np_sign (t - c) = 1 := by
      have : 0 < t - c := by linarith
      simp [np_sign, this]
    rw [move_position, if_neg hne]
    simp only [hsign, one_mul]
    have habs : |t - c| = t - c := abs_of_pos (by linarith)
    by_cases hsnap : t ≤ c + s
    · rw [if_pos ⟨by norm_num, hsnap⟩, if_pos (by rw [habs]; linarith)]
    · rw [if_neg (by push_neg; intro _; linarith), if_neg (by norm_num),
        if_neg (by rw [habs]; push_neg at hsnap ⊢; linarith)]
  · subst heq
    rw [move_position, if_pos rfl, if_pos (by simp; linarith)]
  · have hne : c ≠ t := ne_of_gt hgt
    have hsign : np_sign (t - c) = -1 := by
      have h1 : ¬(0 < t - c) := by linarith
      have h2 : t - c < 0 := by linarith
      simp [np_sign, h1, h2]
    rw [move_position, if_neg hne]
    simp only [hsign]
    have habs : |t - c| = c - t := by
      rw [abs_sub_comm]; exact abs_of_pos (by linarith)
    by_cases hsnap : c + -1 * s ≤ t
    · rw [if_neg (by norm_num), if_pos ⟨by norm_num, hsnap⟩,
        if_pos (by rw [habs]; linarith)]
    · rw [if_neg (by norm_num), if_neg (by push_neg; intro _; linarith),
        if_neg (by rw [habs]; push_neg at hsnap ⊢; linarith)]

/-- C1: for every current position, target and positive step, one call of
`_move_position` returns a position between the current position and the
target (inclusive), strictly closer to the target whenever current ≠
target, and exactly the target with the done flag set whenever one step
would reach or pass it — so repeated advances monotonically reduce the
remaining distance and never overshoot. -/
theorem move_position_step_correct (c t s : ℚ) (hs : 0 < s) :
    (min c t ≤ (move_position c t s).2 ∧ (move_position c t s).2 ≤ max c t)
    ∧ (c ≠ t → |t - (move_position c t s).2| < |t - c|)
    ∧ (|t - c| ≤ s → move_position c t s = (true, t)) := by
  rw [move_position_characterization c t s hs]
  by_cases hsnap : |t - c| ≤ s
  · rw [if_pos hsnap]
    refine ⟨⟨min_le_right c t, le_max_right c t⟩, fun hne => ?_, fun _ => rfl⟩
    have : t - c ≠ 0 := sub_ne_zero.mpr (Ne.symm hne)
    simpa using abs_pos.mpr this
  · rw [if_neg hsnap]
    have hne : c ≠ t := by
      intro heq; apply hsnap; rw [heq]; simpa using le_of_lt hs
    push_neg at hsnap
    rcases hne.lt_or_lt with hlt | hgt
    · have hsign : np_sign (t - c) = 1 := by
        have : 0 < t - c := by linarith
        simp [np_sign, this]
      have habs : |t - c| = t - c := abs_of_pos (by linarith)
      rw [habs] at hsnap
      rw [hsign]
      refine ⟨⟨?_, ?_⟩, fun _ => ?_, fun hc => ?_⟩
      · calc min c t ≤ c := min_le_left c t
          _ ≤ c + 1 * s := by linarith
      · calc c + 1 * s ≤ t := by linarith
          _ ≤ max c t := le_max_right c t
      · rw [abs_of_pos (a := t - (c + 1 * s)) (by linarith), habs]
        linarith
      · rw [habs] at hc; linarith
    · have hsign : np_sign (t - c) = -1 := by
        have h1 : ¬(0 < t - c) := by linarith
        have h2 : t - c < 0 := by linarith
        simp [np_sign, h1, h2]
      have habs : |t - c| = c - t := by
        rw [abs_sub_comm]; exact abs_of_pos (by linarith)
      rw [habs] at hsnap
      rw [hsign]
      refine ⟨⟨?_, ?_⟩, fun _ => ?_, fun hc => ?_⟩
      · calc min c t ≤ t := min_le_right c t
          _ ≤ c + -1 * s := by linarith
      · calc c + -1 * s ≤ c := by linarith
          _ ≤ max c t := le_max_left c t
      · rw [abs_sub_comm, abs_of_pos (a := c + -1 * s - t) (by linarith), habs]
        linarith
      · rw [habs] at hc; linarith

/-- C1 witness: the per-cycle advance contract evaluated at current 0,
target 30, step 7. -/
theorem move_position_step_correct_witness :
    (0:ℚ) < 7
    ∧ ((min 0 30 ≤ (move_position 0 30 7).2 ∧ (move_position 0 30 7).2 ≤ max 0 30)
      ∧ ((0:ℚ) ≠ 30 → |30 - (move_position 0 30 7).2| < |(30:ℚ) - 0|)
      ∧ (|(30:ℚ) - 0| ≤ 7 → move_position 0 30 7 = (true, 30))) :=
  ⟨by decide, move_position_step_correct 0 30 7 (by decide)⟩

/-- C2: every command that requires stationarity (position set, position
offset, pivot set, config acceleration, config velocity, move) is
rejected with an execution error, and the whole controller state is left
unmutated, when the enabled sub-state is MOVING_POINT_TO_POINT. -/
theorem stationary_commands_rejected_while_moving (s : MockController)
    (p1 p2 p3 p4 p5 p6 q1 q2 q3 q4 q5 q6 r1 r2 r3 a v1 v2 v3 v4 : ℚ)
    (h : s.telemetry.enabled_substate = EnabledSubstate.movingPointToPoint) :
    rejected s (Command.positionSet p1 p2 p3 p4 p5 p6)
    ∧ rejected s (Command.positionOffset q1 q2 q3 q4 q5 q6)
    ∧ rejected s (Command.setPivotPoint r1 r2 r3)
    ∧ rejected s (Command.configAccel a)
    ∧ rejected s (Command.configVel v1 v2 v3 v4)
    ∧ rejected s Command.movePointToPoint := by
  have ha : assert_stationary s = some "Enabled substate must be STATIONARY" := by
    rw [assert_stationary, if_neg]
    rw [h]
    simp
  refine ⟨?_, ?_, ?_, ?_, ?_, ?_⟩ <;>
    simp [rejected, run_command, do_command, do_position_set, do_position_offset,
      do_set_pivot_point, do_config_accel, do_config_vel, do_move_point_to_point, ha]

/-- C2 witness: all six stationarity-requiring commands are rejected on a
concrete controller that is moving point-to-point. -/
theorem stationary_commands_rejected_while_moving_witness :
    rejected moving_controller (Command.positionSet 1 2 3 4 5 6)
    ∧ rejected moving_controller (Command.positionOffset 1 2 3 4 5 6)
    ∧ rejected moving_controller (Command.setPivotPoint 1 2 3)
    ∧ rejected moving_controller (Command.configAccel 1)
    ∧ rejected moving_controller (Command.configVel 1 (1/100) 1 (1/100))
    ∧ rejected moving_controller Command.movePointToPoint :=
  stationary_commands_rejected_while_moving moving_controller
    1 2 3 4 5 6 1 2 3 4 5 6 1 2 3 1 1 (1/100) 1 (1/100) rfl

/-- C3 (amended): the stop sub-command always succeeds, immediately sets
the enabled sub-state to STATIONARY regardless of remaining distance, and
leaves the measured pose at its last value; the `do_stop` handler itself
does not clear the staged commanded pose, but the post-command
bookkeeping (`end_run_command`) that follows every completed non-position
command clears it, so the staged pose does not survive the completed stop
command. -/
theorem stop_spec (s : MockController) :
    (do_stop s).2 = none
    ∧ (do_stop s).1.telemetry.enabled_substate = EnabledSubstate.stationary
    ∧ (do_stop s).1.telemetry.measured_xyz = s.telemetry.measured_xyz
    ∧ (do_stop s).1.telemetry.measured_uvw = s.telemetry.measured_uvw
    ∧ (do_stop s).1.commanded_position = s.commanded_position
    ∧ (run_command s Command.stop).2 = none
    ∧ (run_command s Command.stop).1.telemetry.enabled_substate
        = EnabledSubstate.stationary
    ∧ (run_command s Command.stop).1.telemetry.measured_xyz
        = s.telemetry.measured_xyz
    ∧ (run_command s Command.stop).1.telemetry.measured_uvw
        = s.telemetry.measured_uvw
    ∧ (run_command s Command.stop).1.commanded_position = none :=
  ⟨rfl, rfl, rfl, rfl, rfl, rfl, rfl, rfl, rfl, rfl⟩

/-- C3 counterexample: on a moving controller with a staged commanded
pose, the completed stop command clears the staged pose — it does not
survive the stop command as the claim states. -/
theorem stop_keeps_staged_pose_counterexample :
    moving_controller.commanded_position.isSome = true
    ∧ (run_command moving_controller Command.stop).2 = none
    ∧ (run_command moving_controller Command.stop).1.commanded_position = none :=
  ⟨rfl, rfl, rfl⟩

/-- C4: after any command completes successfully, the staged commanded
position is cleared, unless the command was position-set or
position-offset — the only two commands that leave a staged pose in place
(and they always leave one present). -/
theorem end_run_clears_commanded (s s' : MockController) (c : Command)
    (h : run_command s c = (s', none)) :
    (is_position_command c = false → s'.commanded_position = none)
    ∧ (is_position_command c = true →
        s'.commanded_position = (do_command s c).1.commanded_position
        ∧ (s'.commanded_position).isSome = true) := by
  rcases hd : do_command s c with ⟨s1, err⟩
  cases err with
  | some e =>
    rw [run_command, hd] at h
    simp at h
  | none =>
    rw [run_command, hd] at h
    injection h with h1 h2
    subst h1
    constructor
    · intro hf
      simp [end_run_command, hf]
    · intro ht
      rw [end_run_command, if_pos ht]
      refine ⟨rfl, ?_⟩
      cases c with
      | positionSet p1 p2 p3 p4 p5 p6 =>
        rw [do_command, do_position_set] at hd
        rcases ha : assert_stationary s with _ | e
        · rw [ha] at hd
          injection hd with hd1 hd2
          subst hd1
          simp
        · rw [ha] at hd
          simp at hd
      | positionOffset p1 p2 p3 p4 p5 p6 =>
        rw [do_command, do_position_offset] at hd
        rcases ha : assert_stationary s with _ | e
        · rw [ha] at hd
          injection hd with hd1 hd2
          subst hd1
          simp
        · rw [ha] at hd
          simp at hd
      | movePointToPoint => simp [is_position_command] at ht
      | stop => simp [is_position_command] at ht
      | setRawStrut => simp [is_position_command] at ht
      | setPivotPoint p1 p2 p3 => simp [is_position_command] at ht
      | maskLimitSwitch => simp [is_position_command] at ht
      | switchCommandSource p1 => simp [is_position_command] at ht
      | configAccel p1 => simp [is_position_command] at ht
      | configVel p1 p2 p3 p4 => simp [is_position_command] at ht

/-- C4 witness: a completed command-source switch on a controller with a
staged pose clears the staged pose. -/
theorem end_run_clears_commanded_witness :
    (is_position_command (Command.switchCommandSource 0) = false →
      ((run_command staged_controller
        (Command.switchCommandSource 0)).1).commanded_position = none)
    ∧ (is_position_command (Command.switchCommandSource 0) = true →
        ((run_command staged_controller
            (Command.switchCommandSource 0)).1).commanded_position
          = (do_command staged_controller
              (Command.switchCommandSource 0)).1.commanded_position
        ∧ (((run_command staged_controller
            (Command.switchCommandSource 0)).1).commanded_position).isSome = true) :=
  end_run_clears_commanded staged_controller
    (run_command staged_controller (Command.switchCommandSource 0)).1
    (Command.switchCommandSource 0) rfl

/-- C5: the move sub-command, issued while stationary, fails with an
execution error when no commanded pose is staged; when a pose is staged
it copies the staged 6-tuple to the telemetry commanded pose, obtains the
per-strut commanded final positions through the pose-to-strut transform,
replicates the configured strut acceleration, and transitions the enabled
sub-state to MOVING_POINT_TO_POINT. -/
theorem move_point_to_point_spec (s : MockController)
    (h : s.telemetry.enabled_substate = EnabledSubstate.stationary) :
    (s.commanded_position = none →
      run_command s Command.movePointToPoint
        = (s, some "Must set the position or offset first."))
    ∧ (∀ pos, s.commanded_position = some pos →
        (run_command s Command.movePointToPoint).2 = none
        ∧ (run_command s Command.movePointToPoint).1.telemetry.commanded_pos = pos
        ∧ (run_command s Command.movePointToPoint).1.telemetry.strut_commanded_final_pos
            = hexapod_position_to_strut_position pos
        ∧ (run_command s Command.movePointToPoint).1.telemetry.strut_commanded_accel
            = (fun _ => s.config.acceleration_strut)
        ∧ (run_command s Command.movePointToPoint).1.telemetry.enabled_substate
            = EnabledSubstate.movingPointToPoint) := by
  have ha : assert_stationary s = none := by rw [assert_stationary, if_pos h]
  constructor
  · intro hn
    simp [run_command, do_command, do_move_point_to_point, ha, hn]
  · intro pos hp
    simp [run_command, do_command, do_move_point_to_point, ha, hp, end_run_command,
      is_position_command]

/-- C5 witness: the move sub-command on a concrete stationary controller
with a staged pose reports no error and starts the point-to-point move. -/
theorem move_point_to_point_spec_witness :
    (run_command staged_controller Command.movePointToPoint).2 = none
    ∧ (run_command staged_controller Command.movePointToPoint).1.telemetry.commanded_pos
        = ![100, 200, 300, 1 / 10, -1 / 10, 5 / 1000]
    ∧ (run_command staged_controller
        Command.movePointToPoint).1.telemetry.strut_commanded_final_pos
        = hexapod_position_to_strut_position ![100, 200, 300, 1 / 10, -1 / 10, 5 / 1000]
    ∧ (run_command staged_controller
        Command.movePointToPoint).1.telemetry.enabled_substate
        = EnabledSubstate.movingPointToPoint :=
  ⟨((move_point_to_point_spec staged_controller rfl).2
      ![100, 200, 300, 1 / 10, -1 / 10, 5 / 1000] rfl).1,
    ((move_point_to_point_spec staged_controller rfl).2
      ![100, 200, 300, 1 / 10, -1 / 10, 5 / 1000] rfl).2.1,
    ((move_point_to_point_spec staged_controller rfl).2
      ![100, 200, 300, 1 / 10, -1 / 10, 5 / 1000] rfl).2.2.1,
    ((move_point_to_point_spec staged_controller rfl).2
      ![100, 200, 300, 1 / 10, -1 / 10, 5 / 1000] rfl).2.2.2.2⟩

/-- C6: the config-velocity command, issued while stationary, validates
its four parameters in wire order (xy linear, uv angular, z linear,
w angular) against the rule 0 < value ≤ max, fails with the matching
range error and no mutation when one is out of range, and on success
stores them reordered as vel_limits = (xy, z, uv, w). -/
theorem config_vel_spec (s : MockController) (p1 p2 p3 p4 : ℚ)
    (h : s.telemetry.enabled_substate = EnabledSubstate.stationary) :
    (¬(0 < p1 ∧ p1 ≤ MAX_LINEAR_VEL_LIMIT) →
      run_command s (Command.configVel p1 p2 p3 p4)
        = (s, some (range_error_message "xy" p1 MAX_LINEAR_VEL_LIMIT)))
    ∧ ((0 < p1 ∧ p1 ≤ MAX_LINEAR_VEL_LIMIT) →
        ¬(0 < p2 ∧ p2 ≤ MAX_ANGULAR_VEL_LIMIT) →
      run_command s (Command.configVel p1 p2 p3 p4)
        = (s, some (range_error_message "uv" p2 MAX_ANGULAR_VEL_LIMIT)))
    ∧ ((0 < p1 ∧ p1 ≤ MAX_LINEAR_VEL_LIMIT) →
        (0 < p2 ∧ p2 ≤ MAX_ANGULAR_VEL_LIMIT) →
        ¬(0 < p3 ∧ p3 ≤ MAX_LINEAR_VEL_LIMIT) →
      run_command s (Command.configVel p1 p2 p3 p4)
        = (s, some (range_error_message "z" p3 MAX_LINEAR_VEL_LIMIT)))
    ∧ ((0 < p1 ∧ p1 ≤ MAX_LINEAR_VEL_LIMIT) →
        (0 < p2 ∧ p2 ≤ MAX_ANGULAR_VEL_LIMIT) →
        (0 < p3 ∧ p3 ≤ MAX_LINEAR_VEL_LIMIT) →
        ¬(0 < p4 ∧ p4 ≤ MAX_ANGULAR_VEL_LIMIT) →
      run_command s (Command.configVel p1 p2 p3 p4)
        = (s, some (range_error_message "w" p4 MAX_ANGULAR_VEL_LIMIT)))
    ∧ ((0 < p1 ∧ p1 ≤ MAX_LINEAR_VEL_LIMIT) →
        (0 < p2 ∧ p2 ≤ MAX_ANGULAR_VEL_LIMIT) →
        (0 < p3 ∧ p3 ≤ MAX_LINEAR_VEL_LIMIT) →
        (0 < p4 ∧ p4 ≤ MAX_ANGULAR_VEL_LIMIT) →
      run_command s (Command.configVel p1 p2 p3 p4)
        = ({ s with
              config := { s.config with vel_limits := (p1, p3, p2, p4) }
              commanded_position := none }, none)) := by
  have ha : assert_stationary s = none := by rw [assert_stationary, if_pos h]
  refine ⟨fun h1 => ?_, fun h1 h2 => ?_, fun h1 h2 h3 => ?_, fun h1 h2 h3 h4 => ?_,
    fun h1 h2 h3 h4 => ?_⟩ <;>
    simp [run_command, do_command, do_config_vel, ha, check_positive_value,
      end_run_command, is_position_command, *]

/-- C6 witness: params (0.01, 0.02, 0.03, 0.04) are stored reordered as
vel_limits = (0.01, 0.03, 0.02, 0.04). -/
theorem config_vel_spec_witness :
    run_command initial_controller
        (Command.configVel (1/100) (2/100) (3/100) (4/100))
      = ({ initial_controller with
            config := { initial_controller.config with
              vel_limits := (1/100, 3/100, 2/100, 4/100) }
            commanded_position := none }, none) :=
  (config_vel_spec initial_controller (1/100) (2/100) (3/100) (4/100) rfl).2.2.2.2
    (by norm_num [MAX_LINEAR_VEL_LIMIT]) (by norm_num [MAX_ANGULAR_VEL_LIMIT])
    (by norm_num [MAX_LINEAR_VEL_LIMIT]) (by norm_num [MAX_ANGULAR_VEL_LIMIT])

/-- C7: the config-acceleration command, issued while stationary, sets the
configured strut acceleration to param1 exactly when
0 < param1 ≤ MAX_ACCEL_LIMIT = 500; otherwise it fails with the range
error naming the field, the value and the bound, leaving the state
unmutated. -/
theorem config_accel_spec (s : MockController) (p1 : ℚ)
    (h : s.telemetry.enabled_substate = EnabledSubstate.stationary) :
    ((0 < p1 ∧ p1 ≤ MAX_ACCEL_LIMIT) →
      run_command s (Command.configAccel p1)
        = ({ s with
              config := { s.config with acceleration_strut := p1 }
              commanded_position := none }, none))
    ∧ (¬(0 < p1 ∧ p1 ≤ MAX_ACCEL_LIMIT) →
      run_command s (Command.configAccel p1)
        = (s, some (range_error_message "acceleration" p1 MAX_ACCEL_LIMIT)))
    ∧ MAX_ACCEL_LIMIT = 500 := by
  have ha : assert_stationary s = none := by rw [assert_stationary, if_pos h]
  refine ⟨fun hok => ?_, fun hbad => ?_, rfl⟩
  · simp [run_command, do_command, do_config_accel, ha, check_positive_value, hok,
      end_run_command, is_position_command]
  · simp [run_command, do_command, do_config_accel, ha, check_positive_value, hbad]

/-- C7 witness: param1 = 1 succeeds and stores acceleration 1; param1 =
1000 exceeds MAX_ACCEL_LIMIT = 500 and fails with the range error, the
state unchanged. -/
theorem config_accel_spec_witness :
    run_command initial_controller (Command.configAccel 1)
      = ({ initial_controller with
            config := { initial_controller.config with acceleration_strut := 1 }
            commanded_position := none }, none)
    ∧ run_command initial_controller (Command.configAccel 1000)
      = (initial_controller,
          some (range_error_message "acceleration" 1000 MAX_ACCEL_LIMIT)) :=
  ⟨(config_accel_spec initial_controller 1 rfl).1 (by decide),
    (config_accel_spec initial_controller 1000 rfl).2.1 (by decide)⟩

/-- C8 (amended): the four telemetry sections run in order inside one
try/except; a fault in a section is caught — it never propagates and the
fields computed by the sections before the fault are kept — but the
sections after the faulting one are skipped for that cycle (a single
catch-all, not per-section resilience); when no section faults the cycle
performs the full four-section update. -/
theorem telemetry_guard_spec
    (f1 f2 f3 f4 : MockController → Except Unit MockController)
    (s s1 s2 s3 : MockController) :
    (f1 s = Except.error () → update_telemetry_guarded f1 f2 f3 f4 s = s)
    ∧ (f1 s = Except.ok s1 → f2 s1 = Except.error () →
        update_telemetry_guarded f1 f2 f3 f4 s = s1)
    ∧ (f1 s = Except.ok s1 → f2 s1 = Except.ok s2 → f3 s2 = Except.error () →
        update_telemetry_guarded f1 f2 f3 f4 s = s2)
    ∧ (f1 s = Except.ok s1 → f2 s1 = Except.ok s2 → f3 s2 = Except.ok s3 →
        f4 s3 = Except.error () → update_telemetry_guarded f1 f2 f3 f4 s = s3)
    ∧ update_telemetry_guarded (lift_section drive_status_section)
        (lift_section application_status_section) (lift_section power_section)
        (lift_section motion_section) s = update_telemetry s := by
  refine ⟨?_, ?_, ?_, ?_, rfl⟩ <;> intros <;>
    simp [update_telemetry_guarded, *]

/-- C8 witness: a cycle whose application-status section faults keeps the
drive-status section's output and skips the rest. -/
theorem telemetry_guard_spec_witness :
    update_telemetry_guarded (lift_section drive_status_section)
        (fun _ => Except.error ()) (lift_section power_section)
        (lift_section motion_section) initial_controller
      = drive_status_section initial_controller :=
  (telemetry_guard_spec (lift_section drive_status_section)
      (fun _ => Except.error ()) (lift_section power_section)
      (lift_section motion_section) initial_controller
      (drive_status_section initial_controller) initial_controller
      initial_controller).2.1 rfl rfl

/-- C8 counterexample: when the first (drive status) section faults, the
application-status section's field is not emitted for that cycle — the
sections are not individually resilient as the claim states. -/
theorem telemetry_sections_resilient_counterexample :
    update_telemetry_guarded (fun _ => Except.error ())
        (lift_section application_status_section) (lift_section power_section)
        (lift_section motion_section) initial_controller = initial_controller
    ∧ initial_controller.telemetry.application_status = 0
    ∧ (application_status_section
        initial_controller).telemetry.application_status ≠ 0 :=
  ⟨rfl, rfl, by decide⟩

/-- Auxiliary: the power section does not touch the application status. -/
lemma power_section_application_status (s : MockController) :
    (power_section s).telemetry.application_status
      = s.telemetry.application_status := rfl

/-- Auxiliary: the motion section does not touch the application status. -/
lemma motion_section_application_status (s : MockController) :
    (motion_section s).telemetry.application_status
      = s.telemetry.application_status := by
  rw [motion_section]
  split
  · dsimp only
    split
    · rfl
    · rfl
  · rfl

/-- C9: the command-source switch sets the internal remote-commander flag
to (param1 = 1.0) in any state, with no error; and every telemetry cycle
composes an application status that always includes the GUI-connection
and sync-mode flags and includes the DDS command source flag iff the
internal flag is true. -/
theorem command_source_spec :
    ∀ (s : MockController) (p1 : ℚ),
      (run_command s (Command.switchCommandSource p1)).2 = none
      ∧ (run_command s (Command.switchCommandSource p1)).1.is_csc_commander
          = decide (p1 = 1)
      ∧ (∀ s' : MockController,
          (update_telemetry s').telemetry.application_status &&& EUI_CONNECTED
              = EUI_CONNECTED
          ∧ (update_telemetry s').telemetry.application_status &&& SYNC_MODE
              = SYNC_MODE
          ∧ ((update_telemetry s').telemetry.application_status &&& DDS_COMMAND_SOURCE
              = DDS_COMMAND_SOURCE ↔ s'.is_csc_commander = true)) := by
  intro s p1
  refine ⟨rfl, rfl, ?_⟩
  intro s'
  have happ : (update_telemetry s').telemetry.application_status
      = (EUI_CONNECTED ||| SYNC_MODE) |||
          (if s'.is_csc_commander then DDS_COMMAND_SOURCE else 0) := by
    rw [update_telemetry, motion_section_application_status,
      power_section_application_status]
    rfl
  cases hb : s'.is_csc_commander <;> rw [happ, hb] <;>
    exact ⟨by decide, by decide, by decide⟩

/-- C10: for every input pose, the pose-to-strut transform gives the same
value to struts 0, 2, 4 and the same value to struts 1, 3, 5, so it never
produces more than two distinct strut lengths. -/
theorem strut_positions_two_values (p : Fin 6 → ℚ) :
    (hexapod_position_to_strut_position p 0 = hexapod_position_to_strut_position p 2
      ∧ hexapod_position_to_strut_position p 2 = hexapod_position_to_strut_position p 4)
    ∧ (hexapod_position_to_strut_position p 1 = hexapod_position_to_strut_position p 3
      ∧ hexapod_position_to_strut_position p 3 = hexapod_position_to_strut_position p 5) :=
  ⟨⟨rfl, rfl⟩, ⟨rfl, rfl⟩⟩

end HexGui
